import Mathlib

/-!
Shallow embedding of the pitraceback payment backend.

The embedding covers the parts of the source that the verified claims are
about: the Mongoose payment schema with its pre-save middleware and instance
methods (src/models/payment.js), the payments API handler with its create and
update branches (src/unnamed/part_000), the admission preludes of the
payments, products and auth endpoints (src/unnamed/part_000, part_001,
part_003) and the in-memory sliding-window RateLimiter (src/unnamed/part_003,
lines 325-355).

Modelling conventions:
* JS numbers that the code only compares and adds (amounts, millisecond
  timestamps) are modelled as Int; Date.now() values are Int as well, so that
  window arithmetic such as now - windowMs can go negative exactly as in JS.
* JS objects with possibly-absent keys are structures with Option fields.
* Randomly generated strings (the pay_<ts>_<rnd> payment id) are injected as
  an explicit genId argument.
* The document store is a List Payment; a Mongoose save is modelled by the
  two pre-save hooks followed by writing the document back at its position.
  The store-maintained createdAt/updatedAt pair is not modelled; no claim
  reads it.
-/

namespace PiTrace

/-- Status enumeration of the payment schema (payment.js lines 50-63). -/
inductive PayStatus where
  | pending
  | approved
  | completed
  | cancelled
  | expired
  | failed
  | refunded
deriving DecidableEq

/-- The piNetworkData sub-record (payment.js lines 66-77), restricted to the
keys the handlers touch; every key may be absent. The error key is read from
the webhook transactionData payload in the failed branch of
handleUpdatePayment. -/
structure TxData where
  transactionId : Option String := none
  blockHash : Option String := none
  error : Option String := none
deriving DecidableEq

/-- The lastError sub-record (payment.js lines 134-138). -/
structure ErrInfo where
  message : String
  code : String
  timestamp : Int
deriving DecidableEq

/-- The refund sub-record (payment.js lines 154-159). -/
structure RefundInfo where
  amount : Int
  reason : String
  processedAt : Int
deriving DecidableEq

/-- Snapshot of the paying user stored inside a payment (payment.js 17-27). -/
structure UserInfo where
  uid : String
  username : String
  walletAddress : Option String := none
deriving DecidableEq

/-- The product sub-record of a payment (payment.js lines 80-91). -/
structure ProductRef where
  productId : String
  productName : String
  productHash : String
  quantity : Nat := 1
deriving DecidableEq

/-- The service sub-record of a payment (payment.js lines 94-102). -/
structure ServiceRef where
  serviceType : String
  description : String
  duration : String
  features : List String
deriving DecidableEq

/-- A payment document (src/models/payment.js). Fields that no modelled code
path reads (metadata, deviceInfo, ipAddress, userAgent, callback and webhook
bookkeeping, and the store-maintained createdAt/updatedAt) are omitted. -/
structure Payment where
  paymentId : String
  identifier : Option String := none
  user : UserInfo
  amount : Int
  currency : String := "PI"
  memo : String := ""
  status : PayStatus := .pending
  piNetworkData : Option TxData := none
  product : Option ProductRef := none
  service : Option ServiceRef := none
  expiresAt : Int
  approvedAt : Option Int := none
  completedAt : Option Int := none
  cancelledAt : Option Int := none
  failedAt : Option Int := none
  retryCount : Nat := 0
  maxRetries : Nat := 3
  lastError : Option ErrInfo := none
  refund : Option RefundInfo := none
deriving DecidableEq

/-- The isExpired virtual (payment.js 178-180): new Date() > this.expiresAt. -/
def Payment.isExpired (now : Int) (p : Payment) : Bool :=
  p.expiresAt < now

/-- JS truthiness of a possibly-absent string: absent and the empty string
are falsy. -/
def strTruthy : Option String → Bool
  | some s => s ≠ ""
  | none => false

/-- First pre-save hook, part one (payment.js 319-324): generate a paymentId
when the document has none. The generated pay_<timestamp>_<random> string is
injected as genId. -/
def preSaveAssignId (genId : String) (p : Payment) : Payment :=
  if p.paymentId = "" then { p with paymentId := genId } else p

/-- First pre-save hook, part two (payment.js 326-329): refresh expiresAt
when a pending document is already expired. -/
def preSaveExpiry (now : Int) (p : Payment) : Payment :=
  if p.status = .pending ∧ p.expiresAt < now then
    { p with expiresAt := now + 15 * 60 * 1000 }
  else p

/-- Second pre-save hook (payment.js 334-356): when the status path was
modified (its value differs from the one loaded from the store, held in
origStatus), set the matching phase timestamp, but only if it is unset. -/
def preSaveTimestamps (origStatus : PayStatus) (now : Int) (p : Payment) : Payment :=
  if p.status ≠ origStatus then
    match p.status with
    | .approved => if p.approvedAt = none then { p with approvedAt := some now } else p
    | .completed => if p.completedAt = none then { p with completedAt := some now } else p
    | .cancelled => if p.cancelledAt = none then { p with cancelledAt := some now } else p
    | .failed => if p.failedAt = none then { p with failedAt := some now } else p
    | _ => p
  else p

/-- A Mongoose document save: both pre-save hooks in registration order.
origStatus is the status value the document had when it was loaded (or last
saved); the timestamp hook compares against it to model isModified. -/
def mongooseSave (genId : String) (origStatus : PayStatus) (now : Int) (p : Payment) : Payment :=
  preSaveTimestamps origStatus now (preSaveExpiry now (preSaveAssignId genId p))

/-- JS object spread for piNetworkData:
spread of transactionData on top of the stored sub-record; keys present in
the update win. -/
def mergeTx (old new : TxData) : TxData :=
  { transactionId := new.transactionId <|> old.transactionId
    blockHash := new.blockHash <|> old.blockHash
    error := new.error <|> old.error }

/-- Instance method markAsCompleted (payment.js 271-283): set status and
completedAt, merge transactionData into piNetworkData when it carries a
truthy transactionId, and save. -/
def markAsCompleted (td : TxData) (now : Int) (genId : String) (origStatus : PayStatus)
    (p : Payment) : Payment :=
  let p1 : Payment := { p with status := .completed, completedAt := some now }
  let p2 : Payment :=
    if strTruthy td.transactionId then
      { p1 with piNetworkData := some (mergeTx (p1.piNetworkData.getD {}) td) }
    else p1
  mongooseSave genId origStatus now p2

/-- Instance method markAsFailed (payment.js 286-297): set status, failedAt
and lastError, increment retryCount, and save. The error code is
UNKNOWN_ERROR because a plain JS Error has no code field. -/
def markAsFailed (msg : String) (now : Int) (genId : String) (origStatus : PayStatus)
    (p : Payment) : Payment :=
  mongooseSave genId origStatus now
    { p with status := .failed
             failedAt := some now
             lastError := some { message := msg, code := "UNKNOWN_ERROR", timestamp := now }
             retryCount := p.retryCount + 1 }

/-- Instance method processRefund (payment.js 307-316): unconditionally set
status to refunded and the refund sub-record, then save. The JS default
amount || this.amount makes an absent or zero amount fall back to the full
original amount. -/
def processRefund (amount : Option Int) (reason : String) (now : Int) (genId : String)
    (p : Payment) : Payment :=
  mongooseSave genId p.status now
    { p with status := .refunded
             refund := some
               { amount := match amount with
                           | some a => if a = 0 then p.amount else a
                           | none => p.amount
                 reason := reason
                 processedAt := now } }

/-- Response envelope: HTTP status, the success flag and the message of the
JSON body. Payload data is recovered from the returned store. -/
structure ApiResponse where
  status : Nat
  success : Bool
  message : String
deriving DecidableEq

/-- Request body of the PUT /payments webhook update handler
(part_000 line 196). -/
structure UpdateBody where
  paymentId : Option String := none
  status : Option String := none
  transactionData : Option TxData := none
  identifier : Option String := none
deriving DecidableEq

/-- Lookup predicate of Payment.findOne({ $or: [{paymentId}, {identifier}] })
(part_000 lines 205-210). An absent identifier contributes no match. -/
def matchesUpdateLookup (pid : String) (ident : Option String) (p : Payment) : Bool :=
  p.paymentId == pid ||
    (match ident with
     | some s => p.identifier == some s
     | none => false)

/-- Write a saved document back to the store: replace the first entry the
lookup predicate matches (the one findOne returned). -/
def replaceFirst (pred : Payment → Bool) (new : Payment) : List Payment → List Payment
  | [] => []
  | q :: rest => if pred q then new :: rest else q :: replaceFirst pred new rest

/-- The status switch of handleUpdatePayment (part_000 lines 219-253) plus
the final payment.save() of line 253, as a function from the loaded document
to the persisted one. none is the default branch (Invalid status update).
In the completed-with-transactionData and failed branches the markAs* method
already saves; the handler then saves again, with the baseline status equal
to the one just persisted. -/
def failMsg (td : Option TxData) : String :=
  match td with
  | some t =>
    match t.error with
    | some e => if e = "" then "Payment failed" else e
    | none => "Payment failed"
  | none => "Payment failed"

def applyStatusUpdate (p : Payment) (status : Option String) (td : Option TxData)
    (now : Int) (genId : String) : Option Payment :=
  if status = some "approved" then
    some (mongooseSave genId p.status now { p with status := .approved, approvedAt := some now })
  else if status = some "completed" then
    match td with
    | some t =>
      let p1 := markAsCompleted t now genId p.status p
      some (mongooseSave genId p1.status now p1)
    | none =>
      some (mongooseSave genId p.status now
        { p with status := .completed, completedAt := some now })
  else if status = some "cancelled" then
    some (mongooseSave genId p.status now { p with status := .cancelled, cancelledAt := some now })
  else if status = some "failed" then
    let p1 := markAsFailed (failMsg td) now genId p.status p
    some (mongooseSave genId p1.status now p1)
  else none

/-- handleUpdatePayment (part_000 lines 194-269): guard on paymentId (JS
falsy: absent or empty), findOne by paymentId or identifier, apply the status
switch, save, 200 with a templated message; 400 for a missing paymentId or an
unknown status value, 404 when no payment matches. -/
def handleUpdatePayment (body : UpdateBody) (now : Int) (genId : String)
    (store : List Payment) : ApiResponse × List Payment :=
  match body.paymentId with
  | none => (⟨400, false, "Payment ID is required"⟩, store)
  | some pid =>
    if pid = "" then (⟨400, false, "Payment ID is required"⟩, store)
    else
      match store.find? (matchesUpdateLookup pid body.identifier) with
      | none => (⟨404, false, "Payment not found"⟩, store)
      | some p =>
        match applyStatusUpdate p body.status body.transactionData now genId with
        | none => (⟨400, false, "Invalid status update"⟩, store)
        | some p1 =>
          (⟨200, true, "Payment " ++ body.status.getD "" ++ " successfully"⟩,
           replaceFirst (matchesUpdateLookup pid body.identifier) p1 store)

/-- A product document, restricted to the fields the payments handler reads
(src/models/product.js: _id, name, hash). -/
structure Product where
  id : String
  name : String
  hash : String
deriving DecidableEq

/-- Request body of POST /payments (part_000 line 60). The handler
destructures only amount, memo, metadata, productId and serviceType; an
identifier key in the body is present in the model to show that the handler
never reads it. -/
structure CreateBody where
  amount : Option Int := none
  memo : Option String := none
  productId : Option String := none
  serviceType : Option String := none
  identifier : Option String := none
deriving DecidableEq

/-- getServiceDescription (part_000 lines 272-280). -/
def getServiceDescription (serviceType : String) : String :=
  if serviceType = "premium_tracking" then "Premium supply chain tracking features"
  else if serviceType = "api_access" then "API access for developers"
  else if serviceType = "custom_feature" then "Custom feature implementation"
  else if serviceType = "other" then "Other services"
  else "Service payment"

/-- getServiceFeatures (part_000 lines 282-303). -/
def getServiceFeatures (serviceType : String) : List String :=
  if serviceType = "premium_tracking" then
    ["Advanced analytics", "Real-time tracking", "Priority support", "Custom reports"]
  else if serviceType = "api_access" then
    ["API key generation", "High rate limits", "Webhook support", "Documentation access"]
  else if serviceType = "custom_feature" then
    ["Custom development", "Dedicated support", "Feature customization"]
  else ["Basic features"]

/-- MongoDB insert of a payment under the schema's unique indexes: paymentId
is unique, identifier is unique and sparse (payment.js 5-14), so the insert
is rejected exactly when another document already carries the same paymentId,
or both documents carry the same identifier. none is the duplicate-key
error, which the create handler surfaces as a generic 500. -/
def insertPayment (store : List Payment) (p : Payment) : Option (List Payment) :=
  if store.any (fun q => q.paymentId == p.paymentId) then none
  else if (match p.identifier with
           | some i => store.any (fun q => q.identifier == some i)
           | none => false) then none
  else some (store ++ [p])

/-- Sparse uniqueness of identifiers: any two distinct persisted payments
that both carry an identifier carry different ones. -/
def SparseUniqueIdentifiers (store : List Payment) : Prop :=
  store.Pairwise (fun p q => ∀ i, p.identifier = some i → q.identifier ≠ some i)

/-- handleCreatePayment (part_000 lines 50-136) after authentication
succeeded (authenticateToken yielded user; the 401 path is outside the
model). Validates amount (JS: !amount || amount <= 0), resolves an optional
product reference (404 when missing), builds the payment document — without
ever reading body.identifier — and persists it via Payment.create; the
pre-save hooks assign the generated paymentId. A duplicate-key error from
the store is caught by the generic catch and surfaced as 500. -/
def jsOrStr (v : Option String) (d : String) : String :=
  match v with
  | some s => if s = "" then d else s
  | none => d

/-- The paymentData object built by handleCreatePayment (part_000 lines
82-109): user snapshot, amount, defaulted memo, pending status, and a
product or a service sub-record — never an identifier, which the handler
does not read from the body. The expiresAt default of the schema is set at
build time. -/
def buildPaymentDoc (user : UserInfo) (body : CreateBody) (productOpt : Option Product)
    (now : Int) : Payment :=
  { paymentId := ""
    user := user
    amount := body.amount.getD 0
    memo := jsOrStr body.memo "PI TRACE Payment"
    status := .pending
    product := productOpt.map fun pr =>
      { productId := pr.id, productName := pr.name, productHash := pr.hash, quantity := 1 }
    service :=
      match productOpt, body.serviceType with
      | none, some st =>
        if st = "" then none
        else some { serviceType := st, description := getServiceDescription st
                    duration := "30 days", features := getServiceFeatures st }
      | _, _ => none
    expiresAt := now + 15 * 60 * 1000 }

/-- Payment.create plus the handler's response mapping (part_000 lines
112-135): insert the saved document; a store-level duplicate-key error falls
into the generic catch and is surfaced as 500. -/
def persistCreate (store : List Payment) (p : Payment) : ApiResponse × List Payment :=
  match insertPayment store p with
  | none => (⟨500, false, "Failed to create payment"⟩, store)
  | some store1 =>
    (⟨201, true, "Payment created successfully. Please approve in your Pi Wallet."⟩, store1)

/-- The guard if (!amount || amount <= 0) of part_000 line 63: a JS-falsy
amount (absent or zero) or a non-positive one. -/
def amountInvalid (amount : Option Int) : Bool :=
  match amount with
  | none => true
  | some a => a == 0 || a ≤ 0

def handleCreatePayment (user : UserInfo) (body : CreateBody) (products : List Product)
    (now : Int) (genId : String) (store : List Payment) : ApiResponse × List Payment :=
  if amountInvalid body.amount then (⟨400, false, "Valid amount is required"⟩, store)
  else
    match body.productId with
    | some pidStr =>
      if pidStr = "" then
        let doc := buildPaymentDoc user body none now
        persistCreate store (mongooseSave genId doc.status now doc)
      else
        match products.find? (fun pr => pr.id == pidStr) with
        | none => (⟨404, false, "Product not found"⟩, store)
        | some pr =>
          let doc := buildPaymentDoc user body (some pr) now
          persistCreate store (mongooseSave genId doc.status now doc)
    | none =>
      let doc := buildPaymentDoc user body none now
      persistCreate store (mongooseSave genId doc.status now doc)

/-- JS String.prototype.startsWith: a code-point prefix test. -/
def jsStartsWith (p s : String) : Bool :=
  p.data.isPrefixOf s.data

/-- The in-memory sliding-window rate limiter (part_003 lines 325-355). The
requests Map is an insertion-ordered association list from key strings
(identifier_timestamp) to timestamps. -/
structure RateLimiter where
  maxRequests : Nat
  windowMs : Int
  requests : List (String × Int)
deriving DecidableEq

/-- JS Map.prototype.set: update the value in place when the key exists,
append otherwise. -/
def mapSet (k : String) (v : Int) : List (String × Int) → List (String × Int)
  | [] => [(k, v)]
  | (k1, v1) :: rest =>
    if k1 = k then (k, v) :: rest else (k1, v1) :: mapSet k v rest

/-- The key under which check records an attempt:
this.requests.set(identifier_now, now). -/
def limiterKey (identifier : String) (now : Int) : String :=
  identifier ++ "_" ++ toString now

/-- RateLimiter.check (part_003 lines 332-354): evict entries with timestamp
strictly below now - windowMs, count remaining entries whose key starts with
the identifier and whose timestamp is strictly above the window start, fail
when the count has reached maxRequests, otherwise record identifier_now and
succeed. -/
def check (identifier : String) (now : Int) (rl : RateLimiter) : Bool × RateLimiter :=
  let windowStart := now - rl.windowMs
  let cleaned := rl.requests.filter fun kv => !(kv.2 < windowStart)
  let userRequests :=
    ((cleaned.filter fun kv => jsStartsWith identifier kv.1).map Prod.snd).filter
      fun t => windowStart < t
  if rl.maxRequests ≤ userRequests.length then
    (false, { rl with requests := cleaned })
  else
    (true, { rl with requests := mapSet (limiterKey identifier now) now cleaned })

/-- Fold of check over a list of call times, returning the outcomes in order
and the final limiter state. -/
def checkRun (identifier : String) (rl : RateLimiter) : List Int → List Bool × RateLimiter
  | [] => ([], rl)
  | t :: ts =>
    let (b, rl1) := check identifier t rl
    let (bs, rl2) := checkRun identifier rl1 ts
    (b :: bs, rl2)

/-- Routing outcome of the payments endpoint prelude (part_000 lines 6-47):
CORS preflight answered 200 before anything else, then the rate limit, then
method dispatch (405 otherwise). -/
inductive PaymentsRoute where
  | preflight
  | rateLimited
  | createPayment
  | getPayments
  | updatePayment
  | methodNotAllowed
deriving DecidableEq

/-- Admission prelude of the payments endpoint (part_000 lines 6-47). -/
def paymentsDispatch (method clientIP : String) (now : Int) (rl : RateLimiter) :
    PaymentsRoute × RateLimiter :=
  if method = "OPTIONS" then (.preflight, rl)
  else
    let (ok, rl1) := check clientIP now rl
    if !ok then (.rateLimited, rl1)
    else if method = "POST" then (.createPayment, rl1)
    else if method = "GET" then (.getPayments, rl1)
    else if method = "PUT" then (.updatePayment, rl1)
    else (.methodNotAllowed, rl1)

/-- Routing outcome of the products endpoint prelude (part_001 lines 5-19):
no preflight branch exists; the rate limit runs first for every method,
including OPTIONS, which then falls into the 405 default. -/
inductive ProductsRoute where
  | rateLimited
  | getProducts
  | createProduct
  | updateProduct
  | deleteProduct
  | methodNotAllowed
deriving DecidableEq

/-- Admission prelude of the products endpoint (part_001 lines 5-19). -/
def productsDispatch (method clientIP : String) (now : Int) (rl : RateLimiter) :
    ProductsRoute × RateLimiter :=
  let (ok, rl1) := check clientIP now rl
  if !ok then (.rateLimited, rl1)
  else if method = "GET" then (.getProducts, rl1)
  else if method = "POST" then (.createProduct, rl1)
  else if method = "PUT" then (.updateProduct, rl1)
  else if method = "DELETE" then (.deleteProduct, rl1)
  else (.methodNotAllowed, rl1)

/-- Routing outcome of the auth endpoint prelude (part_003 lines 5-19): no
preflight branch exists; the rate limit runs first for every method,
including OPTIONS, which then falls into the 405 default. -/
inductive AuthRoute where
  | rateLimited
  | login
  | getUser
  | methodNotAllowed
deriving DecidableEq

/-- Admission prelude of the auth endpoint (part_003 lines 5-19). -/
def authDispatch (method clientIP : String) (now : Int) (rl : RateLimiter) :
    AuthRoute × RateLimiter :=
  let (ok, rl1) := check clientIP now rl
  if !ok then (.rateLimited, rl1)
  else if method = "POST" then (.login, rl1)
  else if method = "GET" then (.getUser, rl1)
  else (.methodNotAllowed, rl1)

/-- A sample pending payment used by concrete instances. -/
def pendPay : Payment :=
  { paymentId := "PAY1"
    user := { uid := "u1", username := "alice" }
    amount := 7
    status := .pending
    expiresAt := 900000 }

/-- A sample completed payment whose completedAt is already set. -/
def compPay : Payment :=
  { pendPay with status := .completed, completedAt := some 5 }

/-- A sample approved payment whose approvedAt is already set. -/
def appPay : Payment :=
  { pendPay with status := .approved, approvedAt := some 3 }

/-- A sample payment that carries a wallet-network identifier. -/
def idPay : Payment :=
  { pendPay with paymentId := "PAY0", identifier := some "abc" }

/-- A sample payment with every status-phase timestamp already set. -/
def allSetPay : Payment :=
  { pendPay with status := .expired, approvedAt := some 1, completedAt := some 2
                 cancelledAt := some 3, failedAt := some 4 }

/-- A sample authenticated caller for concrete create calls. -/
def cUser : UserInfo :=
  { uid := "u1", username := "alice" }

/-- A sample create body that supplies an identifier already in use. -/
def cBody : CreateBody :=
  { amount := some 5, identifier := some "abc" }

/-- Value of a decimal digit character, used to invert Nat.repr. -/
def decDigitVal (c : Char) : Nat :=
  c.toNat - 48

/-- Decimal value of a digit string, most significant first. -/
def decVal (l : List Char) (acc : Nat) : Nat :=
  l.foldl (fun a c => a * 10 + decDigitVal c) acc

/-! Field-preservation lemmas for the pre-save hooks. -/

theorem preSaveAssignId_status (g : String) (p : Payment) :
    (preSaveAssignId g p).status = p.status := by
  unfold preSaveAssignId; split <;> rfl

theorem preSaveAssignId_identifier (g : String) (p : Payment) :
    (preSaveAssignId g p).identifier = p.identifier := by
  unfold preSaveAssignId; split <;> rfl

theorem preSaveAssignId_refund (g : String) (p : Payment) :
    (preSaveAssignId g p).refund = p.refund := by
  unfold preSaveAssignId; split <;> rfl

theorem preSaveAssignId_paymentId (g : String) (p : Payment) :
    (preSaveAssignId g p).paymentId = if p.paymentId = "" then g else p.paymentId := by
  unfold preSaveAssignId; split <;> simp_all

theorem preSaveExpiry_status (n : Int) (p : Payment) :
    (preSaveExpiry n p).status = p.status := by
  unfold preSaveExpiry; split <;> rfl

theorem preSaveExpiry_identifier (n : Int) (p : Payment) :
    (preSaveExpiry n p).identifier = p.identifier := by
  unfold preSaveExpiry; split <;> rfl

theorem preSaveExpiry_refund (n : Int) (p : Payment) :
    (preSaveExpiry n p).refund = p.refund := by
  unfold preSaveExpiry; split <;> rfl

theorem preSaveExpiry_paymentId (n : Int) (p : Payment) :
    (preSaveExpiry n p).paymentId = p.paymentId := by
  unfold preSaveExpiry; split <;> rfl

theorem preSaveTimestamps_status (o : PayStatus) (n : Int) (p : Payment) :
    (preSaveTimestamps o n p).status = p.status := by
  unfold preSaveTimestamps
  split
  · split <;> first | rfl | (split <;> rfl)
  · rfl

theorem preSaveTimestamps_identifier (o : PayStatus) (n : Int) (p : Payment) :
    (preSaveTimestamps o n p).identifier = p.identifier := by
  unfold preSaveTimestamps
  split
  · split <;> first | rfl | (split <;> rfl)
  · rfl

theorem preSaveTimestamps_refund (o : PayStatus) (n : Int) (p : Payment) :
    (preSaveTimestamps o n p).refund = p.refund := by
  unfold preSaveTimestamps
  split
  · split <;> first | rfl | (split <;> rfl)
  · rfl

theorem preSaveTimestamps_paymentId (o : PayStatus) (n : Int) (p : Payment) :
    (preSaveTimestamps o n p).paymentId = p.paymentId := by
  unfold preSaveTimestamps
  split
  · split <;> first | rfl | (split <;> rfl)
  · rfl

theorem mongooseSave_status (g : String) (o : PayStatus) (n : Int) (p : Payment) :
    (mongooseSave g o n p).status = p.status := by
  unfold mongooseSave
  rw [preSaveTimestamps_status, preSaveExpiry_status, preSaveAssignId_status]

theorem mongooseSave_identifier (g : String) (o : PayStatus) (n : Int) (p : Payment) :
    (mongooseSave g o n p).identifier = p.identifier := by
  unfold mongooseSave
  rw [preSaveTimestamps_identifier, preSaveExpiry_identifier, preSaveAssignId_identifier]

theorem mongooseSave_refund (g : String) (o : PayStatus) (n : Int) (p : Payment) :
    (mongooseSave g o n p).refund = p.refund := by
  unfold mongooseSave
  rw [preSaveTimestamps_refund, preSaveExpiry_refund, preSaveAssignId_refund]

theorem mongooseSave_paymentId (g : String) (o : PayStatus) (n : Int) (p : Payment) :
    (mongooseSave g o n p).paymentId = if p.paymentId = "" then g else p.paymentId := by
  unfold mongooseSave
  rw [preSaveTimestamps_paymentId, preSaveExpiry_paymentId, preSaveAssignId_paymentId]

/-! Store helpers: findOne and writing a saved document back. -/

theorem find?_replaceFirst (pred : Payment → Bool) (l : List Payment) (p q : Payment)
    (hfind : l.find? pred = some p) (hq : pred q = true) :
    (replaceFirst pred q l).find? pred = some q := by
  induction l with
  | nil => simp at hfind
  | cons a rest ih =>
    by_cases ha : pred a
    · simp [replaceFirst, ha, List.find?_cons_of_pos, hq]
    · rw [List.find?_cons_of_neg _ (by simp [ha])] at hfind
      simp only [replaceFirst, if_neg (by simp [ha] : ¬ pred a = true)]
      rw [List.find?_cons_of_neg _ (by simp [ha])]
      exact ih hfind

theorem replaceFirst_replaceFirst (pred : Payment → Bool) (q : Payment) (l : List Payment)
    (hq : pred q = true) :
    replaceFirst pred q (replaceFirst pred q l) = replaceFirst pred q l := by
  induction l with
  | nil => rfl
  | cons a rest ih =>
    by_cases ha : pred a
    · simp [replaceFirst, ha, hq]
    · simp [replaceFirst, ha, ih]

theorem matchesUpdateLookup_save (pid : String) (ident : Option String) (g : String)
    (o : PayStatus) (n : Int) (p : Payment)
    (hpid : pid ≠ "") (h : matchesUpdateLookup pid ident p = true) :
    matchesUpdateLookup pid ident (mongooseSave g o n p) = true := by
  unfold matchesUpdateLookup at h ⊢
  rw [Bool.or_eq_true] at h ⊢
  rcases h with h | h
  · left
    rw [beq_iff_eq] at h
    rw [mongooseSave_paymentId, h, if_neg hpid, beq_iff_eq]
  · right
    rw [mongooseSave_identifier]
    exact h

theorem matchesUpdateLookup_setFields (pid : String) (ident : Option String)
    (p q : Payment) (hp : q.paymentId = p.paymentId) (hi : q.identifier = p.identifier)
    (h : matchesUpdateLookup pid ident p = true) :
    matchesUpdateLookup pid ident q = true := by
  unfold matchesUpdateLookup at h ⊢
  rw [hp, hi]
  exact h

/-! Shape lemmas for handleUpdatePayment. -/

theorem handleUpdatePayment_ok (body : UpdateBody) (now : Int) (genId : String)
    (store : List Payment) (pid : String) (p p1 : Payment)
    (hpid : body.paymentId = some pid) (hpe : pid ≠ "")
    (hfind : store.find? (matchesUpdateLookup pid body.identifier) = some p)
    (happ : applyStatusUpdate p body.status body.transactionData now genId = some p1) :
    handleUpdatePayment body now genId store
      = (⟨200, true, "Payment " ++ body.status.getD "" ++ " successfully"⟩,
         replaceFirst (matchesUpdateLookup pid body.identifier) p1 store) := by
  unfold handleUpdatePayment
  rw [hpid]
  simp only [if_neg hpe, hfind, happ]

theorem handleUpdatePayment_invalidStatus (body : UpdateBody) (now : Int) (genId : String)
    (store : List Payment) (pid : String) (p : Payment)
    (hpid : body.paymentId = some pid) (hpe : pid ≠ "")
    (hfind : store.find? (matchesUpdateLookup pid body.identifier) = some p)
    (happ : applyStatusUpdate p body.status body.transactionData now genId = none) :
    handleUpdatePayment body now genId store
      = (⟨400, false, "Invalid status update"⟩, store) := by
  unfold handleUpdatePayment
  rw [hpid]
  simp only [if_neg hpe, hfind, happ]

theorem markAsCompleted_status (t : TxData) (n : Int) (g : String) (o : PayStatus)
    (p : Payment) : (markAsCompleted t n g o p).status = .completed := by
  unfold markAsCompleted
  rw [mongooseSave_status]
  split <;> rfl

theorem markAsCompleted_identifier (t : TxData) (n : Int) (g : String) (o : PayStatus)
    (p : Payment) : (markAsCompleted t n g o p).identifier = p.identifier := by
  unfold markAsCompleted
  rw [mongooseSave_identifier]
  split <;> rfl

theorem markAsCompleted_paymentId (t : TxData) (n : Int) (g : String) (o : PayStatus)
    (p : Payment) :
    (markAsCompleted t n g o p).paymentId = if p.paymentId = "" then g else p.paymentId := by
  unfold markAsCompleted
  rw [mongooseSave_paymentId]
  split <;> rfl

theorem markAsFailed_status (m : String) (n : Int) (g : String) (o : PayStatus)
    (p : Payment) : (markAsFailed m n g o p).status = .failed := by
  unfold markAsFailed
  rw [mongooseSave_status]

theorem markAsFailed_identifier (m : String) (n : Int) (g : String) (o : PayStatus)
    (p : Payment) : (markAsFailed m n g o p).identifier = p.identifier := by
  unfold markAsFailed
  rw [mongooseSave_identifier]

theorem markAsFailed_paymentId (m : String) (n : Int) (g : String) (o : PayStatus)
    (p : Payment) :
    (markAsFailed m n g o p).paymentId = if p.paymentId = "" then g else p.paymentId := by
  unfold markAsFailed
  rw [mongooseSave_paymentId]

theorem matchesUpdateLookup_mono (pid : String) (ident : Option String) (p q : Payment)
    (hpe : pid ≠ "") (hm : matchesUpdateLookup pid ident p = true)
    (hp : p.paymentId ≠ "" → q.paymentId = p.paymentId)
    (hi : q.identifier = p.identifier) :
    matchesUpdateLookup pid ident q = true := by
  unfold matchesUpdateLookup at hm ⊢
  rw [Bool.or_eq_true] at hm ⊢
  rcases hm with hm | hm
  · left
    rw [beq_iff_eq] at hm ⊢
    rw [hp (by rw [hm]; exact hpe), hm]
  · right
    rw [hi]
    exact hm

theorem applyStatusUpdate_identifier (p p1 : Payment) (st : Option String)
    (td : Option TxData) (now : Int) (genId : String)
    (happ : applyStatusUpdate p st td now genId = some p1) :
    p1.identifier = p.identifier := by
  unfold applyStatusUpdate at happ
  by_cases h1 : st = some "approved"
  · rw [if_pos h1] at happ
    cases happ
    rw [mongooseSave_identifier]
  · rw [if_neg h1] at happ
    by_cases h2 : st = some "completed"
    · rw [if_pos h2] at happ
      cases td with
      | some t =>
        simp only [Option.some.injEq] at happ
        rw [← happ, mongooseSave_identifier, markAsCompleted_identifier]
      | none =>
        simp only [Option.some.injEq] at happ
        rw [← happ, mongooseSave_identifier]
    · rw [if_neg h2] at happ
      by_cases h3 : st = some "cancelled"
      · rw [if_pos h3] at happ
        cases happ
        rw [mongooseSave_identifier]
      · rw [if_neg h3] at happ
        by_cases h4 : st = some "failed"
        · rw [if_pos h4] at happ
          simp only [Option.some.injEq] at happ
          rw [← happ, mongooseSave_identifier, markAsFailed_identifier]
        · rw [if_neg h4] at happ
          exact absurd happ (by simp)

theorem applyStatusUpdate_paymentId (p p1 : Payment) (st : Option String)
    (td : Option TxData) (now : Int) (genId : String)
    (hp : p.paymentId ≠ "")
    (happ : applyStatusUpdate p st td now genId = some p1) :
    p1.paymentId = p.paymentId := by
  unfold applyStatusUpdate at happ
  by_cases h1 : st = some "approved"
  · rw [if_pos h1] at happ
    cases happ
    rw [mongooseSave_paymentId]
    exact if_neg hp
  · rw [if_neg h1] at happ
    by_cases h2 : st = some "completed"
    · rw [if_pos h2] at happ
      cases td with
      | some t =>
        simp only [Option.some.injEq] at happ
        rw [← happ, mongooseSave_paymentId, markAsCompleted_paymentId, if_neg hp, if_neg hp]
      | none =>
        simp only [Option.some.injEq] at happ
        rw [← happ, mongooseSave_paymentId]
        exact if_neg hp
    · rw [if_neg h2] at happ
      by_cases h3 : st = some "cancelled"
      · rw [if_pos h3] at happ
        cases happ
        rw [mongooseSave_paymentId]
        exact if_neg hp
      · rw [if_neg h3] at happ
        by_cases h4 : st = some "failed"
        · rw [if_pos h4] at happ
          simp only [Option.some.injEq] at happ
          rw [← happ, mongooseSave_paymentId, markAsFailed_paymentId, if_neg hp, if_neg hp]
        · rw [if_neg h4] at happ
          exact absurd happ (by simp)

theorem applyStatusUpdate_matches (p p1 : Payment) (st : Option String) (td : Option TxData)
    (now : Int) (genId : String) (pid : String) (ident : Option String)
    (hpe : pid ≠ "") (hm : matchesUpdateLookup pid ident p = true)
    (happ : applyStatusUpdate p st td now genId = some p1) :
    matchesUpdateLookup pid ident p1 = true := by
  refine matchesUpdateLookup_mono pid ident p p1 hpe hm ?_ ?_
  · intro hp
    exact applyStatusUpdate_paymentId p p1 st td now genId hp happ
  · exact applyStatusUpdate_identifier p p1 st td now genId happ

theorem applyStatusUpdate_completed_status (p p1 : Payment) (td : Option TxData)
    (now : Int) (genId : String)
    (happ : applyStatusUpdate p (some "completed") td now genId = some p1) :
    p1.status = .completed := by
  unfold applyStatusUpdate at happ
  rw [if_neg (by simp), if_pos rfl] at happ
  cases td with
  | some t =>
    simp only [Option.some.injEq] at happ
    rw [← happ, mongooseSave_status, markAsCompleted_status]
  | none =>
    simp only [Option.some.injEq] at happ
    rw [← happ, mongooseSave_status]

/-! Idempotence of a save on an already-saved document, used for replayed
webhook updates. -/

theorem preSaveExpiry_of_ne (n : Int) (p : Payment) (h : p.status ≠ .pending) :
    preSaveExpiry n p = p := by
  unfold preSaveExpiry
  rw [if_neg]
  rintro ⟨h1, _⟩
  exact h h1

theorem preSaveTimestamps_of_self (o : PayStatus) (n : Int) (p : Payment)
    (h : p.status = o) : preSaveTimestamps o n p = p := by
  unfold preSaveTimestamps
  rw [if_neg]
  simp [h]

theorem payment_eta_paymentId (p : Payment) (v : String) (h : p.paymentId = v) :
    ({ p with paymentId := v } : Payment) = p := by
  cases p
  simp_all

theorem preSaveAssignId_mongooseSave (g : String) (o : PayStatus) (n : Int) (p : Payment) :
    preSaveAssignId g (mongooseSave g o n p) = mongooseSave g o n p := by
  unfold preSaveAssignId
  split
  · rename_i h
    apply payment_eta_paymentId
    rw [mongooseSave_paymentId] at h ⊢
    by_cases hp : p.paymentId = ""
    · rw [if_pos hp]
    · rw [if_neg hp] at h
      exact absurd h hp
  · rfl

theorem mongooseSave_of_settled (g : String) (o : PayStatus) (n : Int) (p : Payment)
    (h1 : p.status = o) (h2 : p.status ≠ .pending) :
    mongooseSave g o n p = preSaveAssignId g p := by
  unfold mongooseSave
  rw [preSaveExpiry_of_ne _ _ (by rw [preSaveAssignId_status]; exact h2),
      preSaveTimestamps_of_self _ _ _ (by rw [preSaveAssignId_status]; exact h1)]

theorem mongooseSave_idem (g : String) (o : PayStatus) (n n1 : Int) (p : Payment)
    (h : (mongooseSave g o n p).status ≠ .pending) :
    mongooseSave g (mongooseSave g o n p).status n1 (mongooseSave g o n p)
      = mongooseSave g o n p := by
  rw [mongooseSave_of_settled _ _ _ _ rfl h, preSaveAssignId_mongooseSave]

theorem preSaveAssignId_approvedAt (g : String) (p : Payment) :
    (preSaveAssignId g p).approvedAt = p.approvedAt := by
  unfold preSaveAssignId; split <;> rfl

theorem preSaveAssignId_completedAt (g : String) (p : Payment) :
    (preSaveAssignId g p).completedAt = p.completedAt := by
  unfold preSaveAssignId; split <;> rfl

theorem preSaveAssignId_cancelledAt (g : String) (p : Payment) :
    (preSaveAssignId g p).cancelledAt = p.cancelledAt := by
  unfold preSaveAssignId; split <;> rfl

theorem preSaveAssignId_piNetworkData (g : String) (p : Payment) :
    (preSaveAssignId g p).piNetworkData = p.piNetworkData := by
  unfold preSaveAssignId; split <;> rfl

theorem preSaveExpiry_approvedAt (n : Int) (p : Payment) :
    (preSaveExpiry n p).approvedAt = p.approvedAt := by
  unfold preSaveExpiry; split <;> rfl

theorem preSaveExpiry_completedAt (n : Int) (p : Payment) :
    (preSaveExpiry n p).completedAt = p.completedAt := by
  unfold preSaveExpiry; split <;> rfl

theorem preSaveExpiry_cancelledAt (n : Int) (p : Payment) :
    (preSaveExpiry n p).cancelledAt = p.cancelledAt := by
  unfold preSaveExpiry; split <;> rfl

theorem preSaveExpiry_piNetworkData (n : Int) (p : Payment) :
    (preSaveExpiry n p).piNetworkData = p.piNetworkData := by
  unfold preSaveExpiry; split <;> rfl

theorem preSaveTimestamps_approvedAt_of_some (o : PayStatus) (n : Int) (p : Payment)
    (h : p.approvedAt ≠ none) :
    (preSaveTimestamps o n p).approvedAt = p.approvedAt := by
  unfold preSaveTimestamps
  split
  · split <;> first | rfl | (split <;> simp_all)
  · rfl

theorem preSaveTimestamps_completedAt_of_some (o : PayStatus) (n : Int) (p : Payment)
    (h : p.completedAt ≠ none) :
    (preSaveTimestamps o n p).completedAt = p.completedAt := by
  unfold preSaveTimestamps
  split
  · split <;> first | rfl | (split <;> simp_all)
  · rfl

theorem preSaveTimestamps_cancelledAt_of_some (o : PayStatus) (n : Int) (p : Payment)
    (h : p.cancelledAt ≠ none) :
    (preSaveTimestamps o n p).cancelledAt = p.cancelledAt := by
  unfold preSaveTimestamps
  split
  · split <;> first | rfl | (split <;> simp_all)
  · rfl

theorem preSaveTimestamps_failedAt_of_some (o : PayStatus) (n : Int) (p : Payment)
    (h : p.failedAt ≠ none) :
    (preSaveTimestamps o n p).failedAt = p.failedAt := by
  unfold preSaveTimestamps
  split
  · split <;> first | rfl | (split <;> simp_all)
  · rfl

theorem preSaveTimestamps_piNetworkData (o : PayStatus) (n : Int) (p : Payment) :
    (preSaveTimestamps o n p).piNetworkData = p.piNetworkData := by
  unfold preSaveTimestamps
  split
  · split <;> first | rfl | (split <;> rfl)
  · rfl

theorem mongooseSave_approvedAt_of_some (g : String) (o : PayStatus) (n : Int) (p : Payment)
    (h : p.approvedAt ≠ none) :
    (mongooseSave g o n p).approvedAt = p.approvedAt := by
  unfold mongooseSave
  rw [preSaveTimestamps_approvedAt_of_some _ _ _
        (by rw [preSaveExpiry_approvedAt, preSaveAssignId_approvedAt]; exact h),
      preSaveExpiry_approvedAt, preSaveAssignId_approvedAt]

theorem mongooseSave_completedAt_of_some (g : String) (o : PayStatus) (n : Int) (p : Payment)
    (h : p.completedAt ≠ none) :
    (mongooseSave g o n p).completedAt = p.completedAt := by
  unfold mongooseSave
  rw [preSaveTimestamps_completedAt_of_some _ _ _
        (by rw [preSaveExpiry_completedAt, preSaveAssignId_completedAt]; exact h),
      preSaveExpiry_completedAt, preSaveAssignId_completedAt]

theorem mongooseSave_cancelledAt_of_some (g : String) (o : PayStatus) (n : Int) (p : Payment)
    (h : p.cancelledAt ≠ none) :
    (mongooseSave g o n p).cancelledAt = p.cancelledAt := by
  unfold mongooseSave
  rw [preSaveTimestamps_cancelledAt_of_some _ _ _
        (by rw [preSaveExpiry_cancelledAt, preSaveAssignId_cancelledAt]; exact h),
      preSaveExpiry_cancelledAt, preSaveAssignId_cancelledAt]

theorem mongooseSave_piNetworkData (g : String) (o : PayStatus) (n : Int) (p : Payment) :
    (mongooseSave g o n p).piNetworkData = p.piNetworkData := by
  unfold mongooseSave
  rw [preSaveTimestamps_piNetworkData, preSaveExpiry_piNetworkData,
      preSaveAssignId_piNetworkData]

theorem payment_eta_statusApproved (p : Payment) (s : PayStatus) (a : Option Int)
    (h1 : p.status = s) (h2 : p.approvedAt = a) :
    ({ p with status := s, approvedAt := a } : Payment) = p := by
  cases p
  simp_all

theorem payment_eta_statusCompleted (p : Payment) (s : PayStatus) (a : Option Int)
    (h1 : p.status = s) (h2 : p.completedAt = a) :
    ({ p with status := s, completedAt := a } : Payment) = p := by
  cases p
  simp_all

theorem payment_eta_statusCancelled (p : Payment) (s : PayStatus) (a : Option Int)
    (h1 : p.status = s) (h2 : p.cancelledAt = a) :
    ({ p with status := s, cancelledAt := a } : Payment) = p := by
  cases p
  simp_all

theorem payment_eta_statusCompletedTx (p : Payment) (s : PayStatus) (a : Option Int)
    (t : Option TxData) (h1 : p.status = s) (h2 : p.completedAt = a)
    (h3 : p.piNetworkData = t) :
    ({ p with status := s, completedAt := a, piNetworkData := t } : Payment) = p := by
  cases p
  simp_all

theorem mergeTx_idem (a t : TxData) : mergeTx (mergeTx a t) t = mergeTx a t := by
  rcases t with ⟨ti, bh, er⟩
  unfold mergeTx
  cases ti <;> cases bh <;> cases er <;> rfl

theorem mongooseSave_settled_self (g : String) (o : PayStatus) (n n1 : Int) (q : Payment)
    (hq : q.status ≠ .pending) :
    mongooseSave g (mongooseSave g o n q).status n1 (mongooseSave g o n q)
      = mongooseSave g o n q :=
  mongooseSave_idem g o n n1 q (by rw [mongooseSave_status]; exact hq)

set_option maxHeartbeats 2000000 in
theorem applyStatusUpdate_replay (p p1 : Payment) (st : Option String) (td : Option TxData)
    (now : Int) (genId : String)
    (hs : st = some "approved" ∨ st = some "completed" ∨ st = some "cancelled")
    (happ : applyStatusUpdate p st td now genId = some p1) :
    applyStatusUpdate p1 st td now genId = some p1 := by
  rcases hs with hs | hs | hs <;> subst hs
  · unfold applyStatusUpdate at happ ⊢
    rw [if_pos rfl] at happ ⊢
    injection happ with happ
    subst happ
    congr 1
    set P := mongooseSave genId p.status now
      { p with status := PayStatus.approved, approvedAt := some now } with hP
    have h1 : P.status = PayStatus.approved := by rw [hP, mongooseSave_status]
    have h2 : P.approvedAt = some now := by
      rw [hP, mongooseSave_approvedAt_of_some _ _ _ _ (by simp)]
    rw [payment_eta_statusApproved P PayStatus.approved (some now) h1 h2, hP]
    apply mongooseSave_settled_self
    simp
  · unfold applyStatusUpdate at happ ⊢
    rw [if_neg (by simp), if_pos rfl] at happ ⊢
    cases td with
    | none =>
      simp only [Option.some.injEq] at happ ⊢
      subst happ
      set P := mongooseSave genId p.status now
        { p with status := PayStatus.completed, completedAt := some now } with hP
      have h1 : P.status = PayStatus.completed := by rw [hP, mongooseSave_status]
      have h2 : P.completedAt = some now := by
        rw [hP, mongooseSave_completedAt_of_some _ _ _ _ (by simp)]
      rw [payment_eta_statusCompleted P PayStatus.completed (some now) h1 h2, hP]
      apply mongooseSave_settled_self
      simp
    | some t =>
      simp only [Option.some.injEq, markAsCompleted] at happ ⊢
      by_cases htr : strTruthy t.transactionId = true
      · rw [if_pos htr] at happ ⊢
        have hp1 : p1 = mongooseSave genId p.status now
            { p with status := PayStatus.completed, completedAt := some now
                     piNetworkData := some (mergeTx (p.piNetworkData.getD {}) t) } :=
          happ.symm.trans (mongooseSave_settled_self genId p.status now now
            { p with status := PayStatus.completed, completedAt := some now
                     piNetworkData := some (mergeTx (p.piNetworkData.getD {}) t) } (by simp))
        subst hp1
        set P := mongooseSave genId p.status now
          { p with status := PayStatus.completed, completedAt := some now
                   piNetworkData := some (mergeTx (p.piNetworkData.getD {}) t) } with hP
        have h1 : P.status = PayStatus.completed := by rw [hP, mongooseSave_status]
        have h2 : P.completedAt = some now := by
          rw [hP, mongooseSave_completedAt_of_some _ _ _ _ (by simp)]
        have h3 : P.piNetworkData
            = some (mergeTx (p.piNetworkData.getD {}) t) := by
          rw [hP, mongooseSave_piNetworkData]
        have h4 : P.piNetworkData = some (mergeTx (P.piNetworkData.getD {}) t) := by
          rw [h3, Option.getD_some, mergeTx_idem]
        rw [payment_eta_statusCompletedTx P PayStatus.completed (some now)
              (some (mergeTx (P.piNetworkData.getD {}) t)) h1 h2 h4]
        have hsettled : mongooseSave genId P.status now P = P := by
          rw [hP]
          apply mongooseSave_settled_self
          simp
        rw [hsettled, hsettled]
      · rw [if_neg htr] at happ ⊢
        have hp1 : p1 = mongooseSave genId p.status now
            { p with status := PayStatus.completed, completedAt := some now } :=
          happ.symm.trans (mongooseSave_settled_self genId p.status now now
            { p with status := PayStatus.completed, completedAt := some now } (by simp))
        subst hp1
        set P := mongooseSave genId p.status now
          { p with status := PayStatus.completed, completedAt := some now } with hP
        have h1 : P.status = PayStatus.completed := by rw [hP, mongooseSave_status]
        have h2 : P.completedAt = some now := by
          rw [hP, mongooseSave_completedAt_of_some _ _ _ _ (by simp)]
        rw [payment_eta_statusCompleted P PayStatus.completed (some now) h1 h2]
        have hsettled : mongooseSave genId P.status now P = P := by
          rw [hP]
          apply mongooseSave_settled_self
          simp
        rw [hsettled, hsettled]
  · unfold applyStatusUpdate at happ ⊢
    rw [if_neg (by simp), if_neg (by simp), if_pos rfl] at happ ⊢
    injection happ with happ
    subst happ
    congr 1
    set P := mongooseSave genId p.status now
      { p with status := PayStatus.cancelled, cancelledAt := some now } with hP
    have h1 : P.status = PayStatus.cancelled := by rw [hP, mongooseSave_status]
    have h2 : P.cancelledAt = some now := by
      rw [hP, mongooseSave_cancelledAt_of_some _ _ _ _ (by simp)]
    rw [payment_eta_statusCancelled P PayStatus.cancelled (some now) h1 h2, hP]
    apply mongooseSave_settled_self
    simp

/-! Claim C1: legality of status transitions. -/

/-- Claim C1 counterexample: the update handler performs no transition-graph
validation. Transitioning a pending payment straight to completed responds
200 success and persists status completed, instead of failing with an
InvalidTransitionError and leaving the payment unchanged as the claim
states (no InvalidTransitionError exists in the source). -/
theorem C1_counterexample :
    pendPay.status = PayStatus.pending
    ∧ (handleUpdatePayment { paymentId := some "PAY1", status := some "completed" }
        10 "G" [pendPay]).fst.status = 200
    ∧ (handleUpdatePayment { paymentId := some "PAY1", status := some "completed" }
        10 "G" [pendPay]).fst.success = true
    ∧ ((handleUpdatePayment { paymentId := some "PAY1", status := some "completed" }
        10 "G" [pendPay]).snd.map Payment.status) = [PayStatus.completed] := by
  decide

/-- Claim C1 amended: handleUpdatePayment accepts a requested completed
status for every persisted payment regardless of its current status — in
particular a pending payment moves straight to completed — responding 200
success and persisting status completed; no transition-graph check exists. -/
theorem C1_theorem (body : UpdateBody) (now : Int) (genId : String) (store : List Payment)
    (pid : String) (p : Payment)
    (hpid : body.paymentId = some pid) (hpe : pid ≠ "")
    (hfind : store.find? (matchesUpdateLookup pid body.identifier) = some p)
    (hs : body.status = some "completed") :
    (handleUpdatePayment body now genId store).fst.status = 200
    ∧ (handleUpdatePayment body now genId store).fst.success = true
    ∧ ∃ p1, (handleUpdatePayment body now genId store).snd
          = replaceFirst (matchesUpdateLookup pid body.identifier) p1 store
        ∧ p1.status = PayStatus.completed := by
  have happ : ∃ p1, applyStatusUpdate p body.status body.transactionData now genId = some p1
      ∧ p1.status = PayStatus.completed := by
    rw [hs]
    unfold applyStatusUpdate
    rw [if_neg (by simp), if_pos rfl]
    cases body.transactionData with
    | some t =>
      exact ⟨_, rfl, by rw [mongooseSave_status, markAsCompleted_status]⟩
    | none =>
      exact ⟨_, rfl, by rw [mongooseSave_status]⟩
  obtain ⟨p1, happ, hst⟩ := happ
  rw [handleUpdatePayment_ok body now genId store pid p p1 hpid hpe hfind happ]
  exact ⟨rfl, rfl, p1, rfl, hst⟩

/-- Claim C1 witness: the amended theorem applied to a concrete pending
payment transitioned to completed. -/
theorem C1_witness :
    (handleUpdatePayment { paymentId := some "PAY1", status := some "completed" }
        10 "G" [pendPay]).fst.status = 200
    ∧ (handleUpdatePayment { paymentId := some "PAY1", status := some "completed" }
        10 "G" [pendPay]).fst.success = true
    ∧ ∃ p1, (handleUpdatePayment { paymentId := some "PAY1", status := some "completed" }
          10 "G" [pendPay]).snd
        = replaceFirst (matchesUpdateLookup "PAY1" none) p1 [pendPay]
      ∧ p1.status = PayStatus.completed :=
  C1_theorem { paymentId := some "PAY1", status := some "completed" } 10 "G" [pendPay]
    "PAY1" pendPay rfl (by decide) (by decide) rfl

/-! Claim C10: the update handler rejects unknown target statuses. -/

/-- Claim C10 confirmed: whenever the requested status is none of approved,
completed, cancelled and failed (including pending, expired and refunded),
the update handler — once it has resolved a payment — responds 400 with
message Invalid status update and the store is unchanged. -/
theorem C10_theorem (body : UpdateBody) (now : Int) (genId : String) (store : List Payment)
    (pid : String) (p : Payment)
    (hpid : body.paymentId = some pid) (hpe : pid ≠ "")
    (hfind : store.find? (matchesUpdateLookup pid body.identifier) = some p)
    (h1 : body.status ≠ some "approved") (h2 : body.status ≠ some "completed")
    (h3 : body.status ≠ some "cancelled") (h4 : body.status ≠ some "failed") :
    handleUpdatePayment body now genId store
      = (⟨400, false, "Invalid status update"⟩, store) := by
  refine handleUpdatePayment_invalidStatus body now genId store pid p hpid hpe hfind ?_
  unfold applyStatusUpdate
  rw [if_neg h1, if_neg h2, if_neg h3, if_neg h4]

/-- Claim C10 witness: a requested refunded status on a concrete stored
payment is rejected with 400 Invalid status update and the store is kept. -/
theorem C10_witness :
    handleUpdatePayment { paymentId := some "PAY1", status := some "refunded" }
        10 "G" [pendPay]
      = (⟨400, false, "Invalid status update"⟩, [pendPay]) :=
  C10_theorem { paymentId := some "PAY1", status := some "refunded" } 10 "G" [pendPay]
    "PAY1" pendPay rfl (by decide) (by decide)
    (by decide) (by decide) (by decide) (by decide)

/-! Claim C2: idempotence of same-status Transition calls. -/

/-- Claim C2 counterexample: a Transition call to the status the payment
already holds responds 200 success but is not a no-op replay: on a payment
completed at time 5, replaying completed at time 10 overwrites the persisted
completedAt with 10, so the status timestamp does change. -/
theorem C2_counterexample :
    compPay.status = PayStatus.completed
    ∧ compPay.completedAt = some 5
    ∧ (handleUpdatePayment { paymentId := some "PAY1", status := some "completed" }
        10 "G" [compPay]).fst.success = true
    ∧ ((handleUpdatePayment { paymentId := some "PAY1", status := some "completed" }
        10 "G" [compPay]).snd.map Payment.completedAt) = [some 10] := by
  decide

/-- Claim C2 amended: for target statuses approved, completed and cancelled
a Transition call — same-status or not — responds 200 success, and repeating
the identical call (same body, same clock value) is absorbed: the second
call returns the same response and leaves the store exactly as the first
call left it. It is not a pure no-op across time: the phase timestamp is set
to the call time (counterexample), and a replayed failed update additionally
increments retryCount. -/
theorem C2_theorem (body : UpdateBody) (now : Int) (genId : String) (store : List Payment)
    (pid : String) (p : Payment)
    (hpid : body.paymentId = some pid) (hpe : pid ≠ "")
    (hfind : store.find? (matchesUpdateLookup pid body.identifier) = some p)
    (hs : body.status = some "approved" ∨ body.status = some "completed"
          ∨ body.status = some "cancelled") :
    (handleUpdatePayment body now genId store).fst.status = 200
    ∧ (handleUpdatePayment body now genId store).fst.success = true
    ∧ handleUpdatePayment body now genId (handleUpdatePayment body now genId store).snd
        = handleUpdatePayment body now genId store := by
  have happ : ∃ p1, applyStatusUpdate p body.status body.transactionData now genId
      = some p1 := by
    rcases hs with h | h | h <;> rw [h] <;> unfold applyStatusUpdate
    · rw [if_pos rfl]
      exact ⟨_, rfl⟩
    · rw [if_neg (by simp), if_pos rfl]
      cases body.transactionData with
      | some t => exact ⟨_, rfl⟩
      | none => exact ⟨_, rfl⟩
    · rw [if_neg (by simp), if_neg (by simp), if_pos rfl]
      exact ⟨_, rfl⟩
  obtain ⟨p1, happ⟩ := happ
  have hm : matchesUpdateLookup pid body.identifier p = true := List.find?_some hfind
  have hm1 : matchesUpdateLookup pid body.identifier p1 = true :=
    applyStatusUpdate_matches p p1 body.status body.transactionData now genId pid
      body.identifier hpe hm happ
  have hcall1 := handleUpdatePayment_ok body now genId store pid p p1 hpid hpe hfind happ
  have hfind1 : (replaceFirst (matchesUpdateLookup pid body.identifier) p1 store).find?
      (matchesUpdateLookup pid body.identifier) = some p1 :=
    find?_replaceFirst _ store p p1 hfind hm1
  have happ1 : applyStatusUpdate p1 body.status body.transactionData now genId = some p1 :=
    applyStatusUpdate_replay p p1 body.status body.transactionData now genId hs happ
  have hcall2 := handleUpdatePayment_ok body now genId
    (replaceFirst (matchesUpdateLookup pid body.identifier) p1 store) pid p1 p1
    hpid hpe hfind1 happ1
  rw [hcall1]
  refine ⟨rfl, rfl, ?_⟩
  rw [hcall2, replaceFirst_replaceFirst _ _ _ hm1]

/-- Claim C2 witness: the amended theorem applied to a concrete completed
payment replayed to completed. -/
theorem C2_witness :
    (handleUpdatePayment { paymentId := some "PAY1", status := some "completed" }
        10 "G" [compPay]).fst.status = 200
    ∧ (handleUpdatePayment { paymentId := some "PAY1", status := some "completed" }
        10 "G" [compPay]).fst.success = true
    ∧ handleUpdatePayment { paymentId := some "PAY1", status := some "completed" } 10 "G"
        (handleUpdatePayment { paymentId := some "PAY1", status := some "completed" }
          10 "G" [compPay]).snd
      = handleUpdatePayment { paymentId := some "PAY1", status := some "completed" }
          10 "G" [compPay] :=
  C2_theorem { paymentId := some "PAY1", status := some "completed" } 10 "G" [compPay]
    "PAY1" compPay rfl (by decide) (by decide) (Or.inr (Or.inl rfl))

/-! Claim C4: refund legality. -/

/-- Claim C4 counterexample: processRefund has no status guard. On a pending
payment it succeeds and sets status refunded, instead of failing with
InvalidTransitionError and leaving the payment unchanged as the claim
states. -/
theorem C4_counterexample :
    pendPay.status = PayStatus.pending
    ∧ (processRefund none "" 10 "G" pendPay).status = PayStatus.refunded
    ∧ processRefund none "" 10 "G" pendPay ≠ pendPay := by
  decide

/-- Claim C4 amended: processRefund applies unconditionally from every
status: it sets status refunded and the refund sub-record, with the amount
defaulting to the full original amount when absent or zero; there is no
completed-only check and no error path. -/
theorem C4_theorem (amount : Option Int) (reason : String) (now : Int) (genId : String)
    (p : Payment) :
    (processRefund amount reason now genId p).status = PayStatus.refunded
    ∧ (processRefund amount reason now genId p).refund
        = some { amount := match amount with
                           | some a => if a = 0 then p.amount else a
                           | none => p.amount
                 reason := reason
                 processedAt := now } := by
  unfold processRefund
  refine ⟨?_, ?_⟩
  · rw [mongooseSave_status]
  · rw [mongooseSave_refund]

/-! Claim C7: idempotent status-phase timestamping. -/

/-- Claim C7 counterexample: the update handler overwrites an already-set
phase timestamp: re-approving a payment whose approvedAt is 3 persists
approvedAt 10, contradicting the claim that a status-phase timestamp is
written only if currently unset. -/
theorem C7_counterexample :
    appPay.approvedAt = some 3
    ∧ ((handleUpdatePayment { paymentId := some "PAY1", status := some "approved" }
        10 "G" [appPay]).snd.map Payment.approvedAt) = [some 10] := by
  decide

/-- Claim C7 amended: only the schema pre-save middleware is guarded — it
writes approvedAt, completedAt, cancelledAt and failedAt only when unset —
while handleUpdatePayment and the markAs methods assign these timestamps
unconditionally, so a repeated transition into a phase overwrites them. -/
theorem C7_theorem (o : PayStatus) (n : Int) (p : Payment) :
    (p.approvedAt ≠ none → (preSaveTimestamps o n p).approvedAt = p.approvedAt)
    ∧ (p.completedAt ≠ none → (preSaveTimestamps o n p).completedAt = p.completedAt)
    ∧ (p.cancelledAt ≠ none → (preSaveTimestamps o n p).cancelledAt = p.cancelledAt)
    ∧ (p.failedAt ≠ none → (preSaveTimestamps o n p).failedAt = p.failedAt) :=
  ⟨preSaveTimestamps_approvedAt_of_some o n p,
   preSaveTimestamps_completedAt_of_some o n p,
   preSaveTimestamps_cancelledAt_of_some o n p,
   preSaveTimestamps_failedAt_of_some o n p⟩

/-- Claim C7 witness: the amended theorem applied to a payment with all four
phase timestamps set. -/
theorem C7_witness :
    (preSaveTimestamps PayStatus.pending 10 allSetPay).approvedAt = allSetPay.approvedAt
    ∧ (preSaveTimestamps PayStatus.pending 10 allSetPay).completedAt = allSetPay.completedAt
    ∧ (preSaveTimestamps PayStatus.pending 10 allSetPay).cancelledAt = allSetPay.cancelledAt
    ∧ (preSaveTimestamps PayStatus.pending 10 allSetPay).failedAt = allSetPay.failedAt :=
  ⟨(C7_theorem PayStatus.pending 10 allSetPay).1 (by decide),
   (C7_theorem PayStatus.pending 10 allSetPay).2.1 (by decide),
   (C7_theorem PayStatus.pending 10 allSetPay).2.2.1 (by decide),
   (C7_theorem PayStatus.pending 10 allSetPay).2.2.2 (by decide)⟩

/-! Injectivity of the decimal rendering used in limiter keys. -/

theorem decDigitVal_digitChar (m : Nat) (h : m < 10) :
    decDigitVal (Nat.digitChar m) = m := by
  interval_cases m <;> decide

theorem decVal_toDigitsCore (f : Nat) :
    ∀ (n : Nat) (ds : List Char), n < f →
      decVal (Nat.toDigitsCore 10 f n ds) 0 = decVal ds n := by
  induction f with
  | zero => intro n ds h; omega
  | succ f ih =>
    intro n ds h
    simp only [Nat.toDigitsCore]
    by_cases h0 : n / 10 = 0
    · rw [if_pos h0]
      unfold decVal
      simp only [List.foldl]
      rw [decDigitVal_digitChar _ (Nat.mod_lt _ (by norm_num))]
      congr 1
      omega
    · rw [if_neg h0]
      rw [ih (n / 10) _ (by omega)]
      unfold decVal
      simp only [List.foldl]
      rw [decDigitVal_digitChar _ (Nat.mod_lt _ (by norm_num))]
      congr 1
      omega

theorem decVal_toDigits (n : Nat) : decVal (Nat.toDigits 10 n) 0 = n := by
  unfold Nat.toDigits
  rw [decVal_toDigitsCore (n + 1) n [] (Nat.lt_succ_self n)]
  rfl

theorem natRepr_injective (a b : Nat) (h : Nat.repr a = Nat.repr b) : a = b := by
  have hd : Nat.toDigits 10 a = Nat.toDigits 10 b := by
    simpa [Nat.repr, List.asString] using congrArg String.data h
  rw [← decVal_toDigits a, ← decVal_toDigits b, hd]

theorem toStringInt_inj (s t : Int) (hs : 0 ≤ s) (ht : 0 ≤ t)
    (h : toString s = toString t) : s = t := by
  obtain ⟨a, rfl⟩ := Int.eq_ofNat_of_zero_le hs
  obtain ⟨b, rfl⟩ := Int.eq_ofNat_of_zero_le ht
  have h2 : Nat.repr a = Nat.repr b := h
  rw [natRepr_injective a b h2]

theorem limiterKey_inj (id : String) (s t : Int) (hs : 0 ≤ s) (ht : 0 ≤ t)
    (h : limiterKey id s = limiterKey id t) : s = t := by
  unfold limiterKey at h
  have hd := congrArg String.data h
  simp only [String.data_append] at hd
  have h2 : toString s = toString t := by
    apply String.ext
    exact List.append_cancel_left hd
  exact toStringInt_inj s t hs ht h2

theorem jsStartsWith_append (id k : String) : jsStartsWith id (id ++ k) = true := by
  unfold jsStartsWith
  rw [String.data_append]
  generalize id.data = l
  induction l with
  | nil => cases k.data <;> rfl
  | cons a as ih => simp [List.isPrefixOf, ih]

theorem jsStartsWith_limiterKey (id : String) (t : Int) :
    jsStartsWith id (limiterKey id t) = true := by
  unfold limiterKey
  rw [String.append_assoc]
  exact jsStartsWith_append id _

theorem mapSet_of_fresh (k : String) (v : Int) (l : List (String × Int))
    (h : ∀ kv ∈ l, kv.1 ≠ k) : mapSet k v l = l ++ [(k, v)] := by
  induction l with
  | nil => rfl
  | cons kv rest ih =>
    obtain ⟨k1, v1⟩ := kv
    simp only [mapSet]
    rw [if_neg (h (k1, v1) (by simp)), ih (fun kv hkv => h kv (by simp [hkv]))]
    rfl

/-! Evaluation of single rate-limiter checks on a window of recorded calls
from one identity. -/

theorem check_step (id : String) (maxR : Nat) (win T t : Int) (prior : List Int)
    (hbound : ∀ s ∈ prior, 0 ≤ s ∧ T - win < s ∧ s ≤ T)
    (ht0 : 0 ≤ t) (_htw : T - win < t) (htT : t ≤ T)
    (hgt : ∀ s ∈ prior, s < t)
    (hlen : prior.length < maxR) :
    check id t ⟨maxR, win, prior.map (fun s => (limiterKey id s, s))⟩
      = (true, ⟨maxR, win, (prior ++ [t]).map (fun s => (limiterKey id s, s))⟩) := by
  simp only [check]
  have hclean : (prior.map (fun s => (limiterKey id s, s))).filter
      (fun kv => !(kv.2 < t - win)) = prior.map (fun s => (limiterKey id s, s)) := by
    rw [List.filter_eq_self]
    intro kv hkv
    obtain ⟨s, hs, rfl⟩ := List.mem_map.mp hkv
    have h1 := (hbound s hs).2.1
    simp only [Bool.not_eq_true', decide_eq_false_iff_not]
    omega
  rw [hclean]
  have hpref : (prior.map (fun s => (limiterKey id s, s))).filter
      (fun kv => jsStartsWith id kv.1) = prior.map (fun s => (limiterKey id s, s)) := by
    rw [List.filter_eq_self]
    intro kv hkv
    obtain ⟨s, _, rfl⟩ := List.mem_map.mp hkv
    exact jsStartsWith_limiterKey id s
  rw [hpref]
  have hsnd : (prior.map (fun s => (limiterKey id s, s))).map Prod.snd = prior := by
    rw [List.map_map]
    exact List.map_id prior
  rw [hsnd]
  have hwnd : prior.filter (fun x => t - win < x) = prior := by
    rw [List.filter_eq_self]
    intro s hs
    have h1 := (hbound s hs).2.1
    simp only [decide_eq_true_eq]
    omega
  rw [hwnd]
  rw [if_neg (by omega)]
  have hfresh : ∀ kv ∈ prior.map (fun s => (limiterKey id s, s)), kv.1 ≠ limiterKey id t := by
    intro kv hkv
    obtain ⟨s, hs, rfl⟩ := List.mem_map.mp hkv
    intro hk
    have := limiterKey_inj id s t (hbound s hs).1 ht0 hk
    have := hgt s hs
    omega
  rw [mapSet_of_fresh _ _ _ hfresh, List.map_append]
  rfl

theorem check_fail (id : String) (maxR : Nat) (win tf : Int) (ts : List Int)
    (hbound : ∀ s ∈ ts, tf - win < s)
    (hlen : maxR ≤ ts.length) :
    check id tf ⟨maxR, win, ts.map (fun s => (limiterKey id s, s))⟩
      = (false, ⟨maxR, win, ts.map (fun s => (limiterKey id s, s))⟩) := by
  simp only [check]
  have hclean : (ts.map (fun s => (limiterKey id s, s))).filter
      (fun kv => !(kv.2 < tf - win)) = ts.map (fun s => (limiterKey id s, s)) := by
    rw [List.filter_eq_self]
    intro kv hkv
    obtain ⟨s, hs, rfl⟩ := List.mem_map.mp hkv
    have h1 := hbound s hs
    simp only [Bool.not_eq_true', decide_eq_false_iff_not]
    omega
  rw [hclean]
  have hpref : (ts.map (fun s => (limiterKey id s, s))).filter
      (fun kv => jsStartsWith id kv.1) = ts.map (fun s => (limiterKey id s, s)) := by
    rw [List.filter_eq_self]
    intro kv hkv
    obtain ⟨s, _, rfl⟩ := List.mem_map.mp hkv
    exact jsStartsWith_limiterKey id s
  rw [hpref]
  have hsnd : (ts.map (fun s => (limiterKey id s, s))).map Prod.snd = ts := by
    rw [List.map_map]
    exact List.map_id ts
  rw [hsnd]
  have hwnd : ts.filter (fun x => tf - win < x) = ts := by
    rw [List.filter_eq_self]
    intro s hs
    have h1 := hbound s hs
    simp only [decide_eq_true_eq]
    omega
  rw [hwnd]
  rw [if_pos hlen]

theorem check_recover (id : String) (maxR : Nat) (win trec : Int) (ts : List Int)
    (hmax : 0 < maxR)
    (hrec : ∀ s ∈ ts, s ≤ trec - win) :
    (check id trec ⟨maxR, win, ts.map (fun s => (limiterKey id s, s))⟩).fst = true := by
  simp only [check]
  have hempty : ((((ts.map (fun s => (limiterKey id s, s))).filter
        (fun kv => !(kv.2 < trec - win))).filter
          (fun kv => jsStartsWith id kv.1)).map Prod.snd).filter
            (fun x => trec - win < x) = [] := by
    rw [List.filter_eq_nil_iff]
    intro x hx
    obtain ⟨kv, hkv, rfl⟩ := List.mem_map.mp hx
    have hkv1 := List.mem_of_mem_filter hkv
    have hkv2 := List.mem_of_mem_filter hkv1
    obtain ⟨s, hs, rfl⟩ := List.mem_map.mp hkv2
    have := hrec s hs
    simp only [decide_eq_true_eq]
    omega
  rw [hempty]
  rw [if_neg (by simp; omega)]

theorem checkRun_spec (id : String) (maxR : Nat) (win T : Int) :
    ∀ (ts prior : List Int),
      (prior ++ ts).Pairwise (· < ·) →
      (∀ s ∈ prior ++ ts, 0 ≤ s ∧ T - win < s ∧ s ≤ T) →
      prior.length + ts.length ≤ maxR →
      checkRun id ⟨maxR, win, prior.map (fun s => (limiterKey id s, s))⟩ ts
        = (List.replicate ts.length true,
           ⟨maxR, win, (prior ++ ts).map (fun s => (limiterKey id s, s))⟩) := by
  intro ts
  induction ts with
  | nil =>
    intro prior _ _ _
    simp [checkRun]
  | cons t rest ih =>
    intro prior hpw hbound hlen
    have hmem : ∀ s ∈ prior, s ∈ prior ++ t :: rest := fun s hs => List.mem_append_left _ hs
    have htmem : t ∈ prior ++ t :: rest := List.mem_append_right _ (List.mem_cons_self t rest)
    have hgt : ∀ s ∈ prior, s < t := by
      intro s hs
      have := (List.pairwise_append.mp hpw).2.2 s hs t (List.mem_cons_self t rest)
      exact this
    have hstep := check_step id maxR win T t prior
      (fun s hs => hbound s (hmem s hs))
      (hbound t htmem).1 (hbound t htmem).2.1 (hbound t htmem).2.2
      hgt (by simp at hlen ⊢; omega)
    simp only [checkRun]
    rw [hstep]
    have hrec := ih (prior ++ [t])
      (by rwa [List.append_assoc, List.singleton_append])
      (by rw [List.append_assoc, List.singleton_append]; exact hbound)
      (by simp at hlen ⊢; omega)
    rw [List.append_assoc, List.singleton_append] at hrec
    rw [hrec]
    rfl

/-! Claim C5: sliding-window budget semantics of RateLimiter.check. -/

/-- Claim C5 counterexample: attempts are recorded under the key
identifier_timestamp, so two calls in the same millisecond collapse into one
Map entry. With budget (2, 100ms) and calls at times 0, 0, 1, all three
calls within the window succeed, although the claim requires the third call
to fail closed. -/
theorem C5_counterexample :
    (checkRun "X" ⟨2, 100, []⟩ [0, 0, 1]).fst = [true, true, true] := by
  decide

/-- Claim C5 amended: the claimed budget behavior holds when the call
timestamps are strictly increasing (so that no two recorded attempts share a
Map key): starting from an empty window, maxRequests calls at nonnegative,
strictly increasing times inside one window all succeed and are recorded;
a further call at tf inside the window of every recorded attempt fails
closed; and a call at trec, once the window has elapsed for every recorded
attempt, succeeds again. -/
theorem C5_theorem (id : String) (maxR : Nat) (win : Int) (ts : List Int) (tf trec : Int)
    (hmax : 0 < maxR) (hlen : ts.length = maxR)
    (hpw : ts.Pairwise (· < ·))
    (hbound : ∀ s ∈ ts, 0 ≤ s ∧ tf - win < s ∧ s ≤ tf)
    (hrec : ∀ s ∈ ts, s ≤ trec - win) :
    (checkRun id ⟨maxR, win, []⟩ ts).fst = List.replicate maxR true
    ∧ (check id tf (checkRun id ⟨maxR, win, []⟩ ts).snd).fst = false
    ∧ (check id trec (check id tf (checkRun id ⟨maxR, win, []⟩ ts).snd).snd).fst
        = true := by
  have hspec := checkRun_spec id maxR win tf ts []
    (by simpa using hpw) (by simpa using hbound) (by simp [hlen])
  simp only [List.map_nil, List.nil_append] at hspec
  have hfail := check_fail id maxR win tf ts (fun s hs => (hbound s hs).2.1) (by omega)
  refine ⟨?_, ?_, ?_⟩
  · rw [hspec, hlen]
  · rw [hspec]
    rw [hfail]
  · rw [hspec]
    rw [hfail]
    exact check_recover id maxR win trec ts hmax hrec

/-- Claim C5 witness: the amended theorem at the budget of the spec scenario,
(3 requests, 60s): calls at 0ms, 1ms, 2ms succeed, a call at 3ms fails
closed, and a call at 60002ms succeeds again. -/
theorem C5_witness :
    (checkRun "X" ⟨3, 60000, []⟩ [0, 1, 2]).fst = List.replicate 3 true
    ∧ (check "X" 3 (checkRun "X" ⟨3, 60000, []⟩ [0, 1, 2]).snd).fst = false
    ∧ (check "X" 60002 (check "X" 3 (checkRun "X" ⟨3, 60000, []⟩ [0, 1, 2]).snd).snd).fst
        = true :=
  C5_theorem "X" 3 60000 [0, 1, 2] 3 60002 (by decide) (by decide) (by decide)
    (by decide) (by decide)

/-! Claim C6: rate-limiter noninterference across identities. -/

/-- Claim C6 counterexample: counting uses key.startsWith(identifier), so an
identity that is a string prefix of another observes its calls: with budget
(1, 100), after a call from identity ab at time 0, a call from identity a at
time 1 is rejected, while without the ab call it would succeed — the
outcome of Check(a) depends on calls from the distinct identity ab. -/
theorem C6_counterexample :
    (check "a" 1 (⟨1, 100, []⟩ : RateLimiter)).fst = true
    ∧ (check "a" 1 (check "ab" 0 (⟨1, 100, []⟩ : RateLimiter)).snd).fst = false := by
  decide

/-- Claim C6 amended: the outcome of Check(X) depends only on the recorded
entries whose key has X as a string prefix. Hence calls from a distinct
identity Y cannot influence Check(X) as long as none of Y's recorded keys
(Y_timestamp strings) starts with X; identities where X is a prefix of such
a key (for example Y = ab and X = a) do interfere, as the counterexample
shows. -/
theorem C6_theorem (X : String) (now : Int) (maxR : Nat) (win : Int)
    (l1 l2 : List (String × Int))
    (h : l1.filter (fun kv => jsStartsWith X kv.1)
        = l2.filter (fun kv => jsStartsWith X kv.1)) :
    (check X now ⟨maxR, win, l1⟩).fst = (check X now ⟨maxR, win, l2⟩).fst := by
  have hcount : (((l1.filter (fun kv => !(kv.2 < now - win))).filter
        (fun kv => jsStartsWith X kv.1)).map Prod.snd).filter (fun x => now - win < x)
      = (((l2.filter (fun kv => !(kv.2 < now - win))).filter
        (fun kv => jsStartsWith X kv.1)).map Prod.snd).filter (fun x => now - win < x) := by
    conv_lhs => rw [List.filter_comm, h, ← List.filter_comm]
  simp only [check]
  rw [hcount]
  split <;> rfl

/-- Claim C6 witness: the amended theorem at a concrete state: a recorded
call from identity b does not change the outcome of Check(a). -/
theorem C6_witness :
    (check "a" 1 (⟨1, 100, [("b_9", 9)]⟩ : RateLimiter)).fst
      = (check "a" 1 (⟨1, 100, []⟩ : RateLimiter)).fst :=
  C6_theorem "a" 1 1 100 [("b_9", 9)] [] (by decide)

/-! Claim C9: CORS preflight handling. -/

/-- Claim C9 counterexample: the auth and products endpoints do not
special-case OPTIONS: a preflight request is rate limited (the attempt is
recorded against the caller) and then answered with the 405 default, not
200. -/
theorem C9_counterexample :
    authDispatch "OPTIONS" "ip" 0 ⟨5, 900000, []⟩
        = (AuthRoute.methodNotAllowed, ⟨5, 900000, [("ip_0", 0)]⟩)
    ∧ productsDispatch "OPTIONS" "ip" 0 ⟨100, 3600000, []⟩
        = (ProductsRoute.methodNotAllowed, ⟨100, 3600000, [("ip_0", 0)]⟩) := by
  decide

/-- Claim C9 amended: only the payments endpoint (and the users and index
handlers outside the claim's sources) answers CORS preflight with 200 before
any admission checks and without touching the limiter; the auth and products
endpoints run the rate limiter on OPTIONS and then answer 405 (rate limited
when the budget is exhausted). -/
theorem C9_theorem (ip : String) (now : Int) (rl : RateLimiter) :
    paymentsDispatch "OPTIONS" ip now rl = (PaymentsRoute.preflight, rl)
    ∧ authDispatch "OPTIONS" ip now rl
        = (if (check ip now rl).fst then AuthRoute.methodNotAllowed
           else AuthRoute.rateLimited, (check ip now rl).snd)
    ∧ productsDispatch "OPTIONS" ip now rl
        = (if (check ip now rl).fst then ProductsRoute.methodNotAllowed
           else ProductsRoute.rateLimited, (check ip now rl).snd) := by
  refine ⟨rfl, ?_, ?_⟩
  · unfold authDispatch
    rcases hq : check ip now rl with ⟨ok, rl1⟩
    cases ok <;> simp
  · unfold productsDispatch
    rcases hq : check ip now rl with ⟨ok, rl1⟩
    cases ok <;> simp

/-! Shape lemmas for handleCreatePayment. -/

theorem insertPayment_some (store : List Payment) (p : Payment) (l : List Payment)
    (h : insertPayment store p = some l) : l = store ++ [p] := by
  unfold insertPayment at h
  split at h
  · exact absurd h (by simp)
  · split at h
    · exact absurd h (by simp)
    · injection h with h
      exact h.symm

theorem persistCreate_cases (store : List Payment) (p : Payment) :
    persistCreate store p = (⟨500, false, "Failed to create payment"⟩, store)
    ∨ persistCreate store p
        = (⟨201, true, "Payment created successfully. Please approve in your Pi Wallet."⟩,
           store ++ [p]) := by
  unfold persistCreate
  rcases hin : insertPayment store p with _ | l
  · exact Or.inl rfl
  · right
    rw [insertPayment_some store p l hin]

theorem buildPaymentDoc_identifier (user : UserInfo) (body : CreateBody)
    (productOpt : Option Product) (now : Int) :
    (buildPaymentDoc user body productOpt now).identifier = none := rfl

theorem create_result_cases (user : UserInfo) (body : CreateBody) (products : List Product)
    (now : Int) (genId : String) (store : List Payment) :
    (handleCreatePayment user body products now genId store).snd = store
    ∨ ∃ saved, saved.identifier = none
        ∧ (handleCreatePayment user body products now genId store).snd
            = store ++ [saved] := by
  have hsaved : ∀ productOpt,
      (mongooseSave genId (buildPaymentDoc user body productOpt now).status now
        (buildPaymentDoc user body productOpt now)).identifier = none := by
    intro productOpt
    rw [mongooseSave_identifier, buildPaymentDoc_identifier]
  unfold handleCreatePayment
  by_cases hb : amountInvalid body.amount = true
  · rw [if_pos hb]
    exact Or.inl rfl
  · rw [if_neg hb]
    rcases hbp : body.productId with _ | pidStr
    · simp only []
      rcases persistCreate_cases store (mongooseSave genId
          (buildPaymentDoc user body none now).status now
          (buildPaymentDoc user body none now)) with hc | hc <;> rw [hc]
      · exact Or.inl rfl
      · exact Or.inr ⟨_, hsaved none, rfl⟩
    · simp only []
      split
      · rcases persistCreate_cases store (mongooseSave genId
            (buildPaymentDoc user body none now).status now
            (buildPaymentDoc user body none now)) with hc | hc <;> rw [hc]
        · exact Or.inl rfl
        · exact Or.inr ⟨_, hsaved none, rfl⟩
      · rcases hf : products.find? (fun pr => pr.id == pidStr) with _ | pr
        · rw [hf]
          exact Or.inl rfl
        · rw [hf]
          simp only []
          rcases persistCreate_cases store (mongooseSave genId
              (buildPaymentDoc user body (some pr) now).status now
              (buildPaymentDoc user body (some pr) now)) with hc | hc <;> rw [hc]
          · exact Or.inl rfl
          · exact Or.inr ⟨_, hsaved (some pr), rfl⟩

/-! Claim C3: identifier uniqueness on create. -/

/-- Claim C3 counterexample: handleCreatePayment never reads the supplied
identifier, so a Create supplying the identifier of an existing payment does
not fail with ConflictError — it succeeds with 201 and persists a second
record that carries no identifier at all. -/
theorem C3_counterexample :
    idPay.identifier = some "abc"
    ∧ cBody.identifier = some "abc"
    ∧ (handleCreatePayment cUser cBody [] 0 "G" [idPay]).fst.status = 201
    ∧ (handleCreatePayment cUser cBody [] 0 "G" [idPay]).fst.success = true
    ∧ ((handleCreatePayment cUser cBody [] 0 "G" [idPay]).snd.map Payment.identifier)
        = [some "abc", none] := by
  decide

/-- Claim C3 amended: sparse identifier uniqueness is maintained because
handleCreatePayment never persists an identifier at all: every record it
adds carries none, and a supplied in-use identifier yields a 201 success
rather than a ConflictError; uniqueness among records that do carry an
identifier rests on the store's sparse unique index, modelled in
insertPayment, whose violation surfaces as a 500, not a ConflictError. -/
theorem C3_theorem (user : UserInfo) (body : CreateBody) (products : List Product)
    (now : Int) (genId : String) (store : List Payment) :
    (∀ q ∈ (handleCreatePayment user body products now genId store).snd,
        q ∉ store → q.identifier = none)
    ∧ (SparseUniqueIdentifiers store →
        SparseUniqueIdentifiers (handleCreatePayment user body products now genId store).snd) := by
  rcases create_result_cases user body products now genId store with hc | ⟨saved, hid, hc⟩
  · rw [hc]
    exact ⟨fun q hq hnq => absurd hq hnq, fun h => h⟩
  · rw [hc]
    constructor
    · intro q hq hnq
      rcases List.mem_append.mp hq with h | h
      · exact absurd h hnq
      · rw [List.mem_singleton.mp h]
        exact hid
    · intro hsp
      unfold SparseUniqueIdentifiers at hsp ⊢
      rw [List.pairwise_append]
      refine ⟨hsp, by simp, ?_⟩
      intro a ha b hb i hai
      rw [List.mem_singleton.mp hb, hid]
      simp

/-- Claim C3 witness: the amended theorem applied to a concrete store that
already holds identifier abc and a create call supplying abc again. -/
theorem C3_witness :
    (mongooseSave "G" (buildPaymentDoc cUser cBody none 0).status 0
        (buildPaymentDoc cUser cBody none 0)).identifier = none
    ∧ SparseUniqueIdentifiers (handleCreatePayment cUser cBody [] 0 "G" [idPay]).snd :=
  ⟨(C3_theorem cUser cBody [] 0 "G" [idPay]).1 _ (by decide) (by decide),
   (C3_theorem cUser cBody [] 0 "G" [idPay]).2 (by simp [SparseUniqueIdentifiers])⟩

/-! Claim C8: validation failures of Create. -/

/-- Claim C8 counterexample: an unresolvable product reference is answered
404 Product not found — a NotFoundError — not the 400 ValidationError the
claim states (no record is persisted either way). -/
theorem C8_counterexample :
    (handleCreatePayment cUser { amount := some 5, productId := some "nope" }
        [] 0 "G" []).fst = ⟨404, false, "Product not found"⟩
    ∧ (handleCreatePayment cUser { amount := some 5, productId := some "nope" }
        [] 0 "G" []).snd = [] := by
  decide

/-- Claim C8 amended: a Create whose amount is absent or not positive fails
with 400 Valid amount is required, and a Create whose supplied product
reference cannot be resolved fails with 404 Product not found; in both
failures the store is unchanged, so no record is persisted. -/
theorem C8_theorem (user : UserInfo) (body : CreateBody) (products : List Product)
    (now : Int) (genId : String) (store : List Payment) :
    ((match body.amount with
      | none => True
      | some a => a ≤ 0) →
      handleCreatePayment user body products now genId store
        = (⟨400, false, "Valid amount is required"⟩, store))
    ∧ (∀ a ps, body.amount = some a → 0 < a → body.productId = some ps → ps ≠ "" →
        products.find? (fun pr => pr.id == ps) = none →
        handleCreatePayment user body products now genId store
          = (⟨404, false, "Product not found"⟩, store)) := by
  constructor
  · intro h
    unfold handleCreatePayment
    have hb : amountInvalid body.amount = true := by
      unfold amountInvalid
      rcases hba : body.amount with _ | a
      · rfl
      · rw [hba] at h
        have h2 : a ≤ 0 := h
        simp [h2]
    rw [if_pos hb]
  · intro a ps hba hpos hbp hps hf
    unfold handleCreatePayment
    have hb : amountInvalid body.amount = false := by
      unfold amountInvalid
      rw [hba]
      simp only [Bool.or_eq_false_iff, beq_eq_false_iff_ne, ne_eq, decide_eq_false_iff_not]
      omega
    rw [if_neg (by rw [hb]; simp)]
    rw [hbp]
    simp only []
    rw [if_neg hps]
    rw [hf]

/-- Claim C8 witness: the amended theorem applied to a create call with
amount -5 and to one referencing a missing product. -/
theorem C8_witness :
    handleCreatePayment cUser { amount := some (-5) } [] 0 "G" []
        = (⟨400, false, "Valid amount is required"⟩, [])
    ∧ handleCreatePayment cUser { amount := some 5, productId := some "nope" } [] 0 "G" []
        = (⟨404, false, "Product not found"⟩, []) :=
  ⟨(C8_theorem cUser { amount := some (-5) } [] 0 "G" []).1 (by decide),
   (C8_theorem cUser { amount := some 5, productId := some "nope" } [] 0 "G" []).2
     5 "nope" rfl (by decide) rfl (by decide) rfl⟩

end PiTrace
